import Mathlib

/-!
Verification of the clip-share service core: a shallow embedding of the
repository's domain model (ShortCode, field validators, clip service,
web handlers) together with theorems settling the specification claims.

Strings are Lean `String`s (structures over `List Char`), timestamps are
`Nat`, and the clip store is modelled as a function from short codes to
optional clip records.  Web handlers from `src/lib/web/http.rs` are
modelled as pure functions from the service outcome to a status code, the
list of view-count events issued, and the list of cookies added.
-/

namespace ClipShare

/-- The character alphabet used by `ShortCode::new` in
`src/lib/domain/clip/field/short_code.rs`. -/
def allowed_chars : List Char := ['a', 'b', 'c', 'd', '1', '2', '3', '4']

/-- `ShortCode` from `short_code.rs`: a newtype over `String`. -/
structure ShortCode where
  inner : String
  deriving DecidableEq, Repr

/-- `ShortCode::new`: builds a 10-character string, each character chosen
from `allowed_chars` by the thread RNG.  The RNG is modelled by the
function `pick`, giving for each loop iteration the index chosen by
`allowed_chars.choose(&mut rng)`. -/
def ShortCode.new (pick : Nat → Fin 8) : ShortCode :=
  ShortCode.mk (String.mk ((List.range 10).map fun i =>
    allowed_chars.get (Fin.cast (by decide) (pick i))))

/-- `ShortCode::as_str`. -/
def ShortCode.as_str (c : ShortCode) : String := c.inner

/-- `ShortCode::into_inner`. -/
def ShortCode.into_inner (c : ShortCode) : String := c.inner

/-- `impl From<ShortCode> for String`. -/
def ShortCode.intoString (c : ShortCode) : String := c.inner

/-- `impl From<&str> for ShortCode`: `ShortCode(short_code.to_owned())`. -/
def ShortCode.fromStr (s : String) : ShortCode := ShortCode.mk s

/-- The `ClipError` type is only relevant here as the (never-produced)
error of `FromStr`. -/
inductive ClipError
  | invalidShortCode
  deriving DecidableEq, Repr

/-- `impl FromStr for ShortCode`: `Ok(Self(s.into()))`, never fails. -/
def ShortCode.from_str (s : String) : Except ClipError ShortCode :=
  Except.ok (ShortCode.mk s)

/-- `impl FromParam for ShortCode`: `Ok(ShortCode::from(param))`, never
fails; the error type is `&str`. -/
def ShortCode.from_param (s : String) : Except String ShortCode :=
  Except.ok (ShortCode.fromStr s)

/-- The derived `Hash` on `ShortCode` hashes its single `String` field:
modelled for an arbitrary string hash function `f`. -/
def ShortCode.hashWith (f : String → Nat) (c : ShortCode) : Nat := f c.inner

/-- Rust's `str::trim`: drop whitespace from both ends. -/
def rustTrim (s : String) : String :=
  String.mk (((s.data.dropWhile Char.isWhitespace).reverse.dropWhile
    Char.isWhitespace).reverse)

/-- A field-level validation failure, carrying the field and the reason. -/
structure ValidationError where
  fieldName : String
  reason : String
  deriving DecidableEq, Repr

/-- Modelled from the spec: the `Content` validator (the
`domain/clip/field` module is not under `src/`).  "Fails if empty after
trimming; otherwise wraps the raw text unchanged." -/
structure Content where
  inner : String
  deriving DecidableEq, Repr

/-- Modelled from the spec: `Content::new`. -/
def Content.new (raw : String) : Except ValidationError Content :=
  if rustTrim raw = "" then
    Except.error ⟨"content", "content cannot be empty"⟩
  else
    Except.ok ⟨raw⟩

/-- Modelled from the spec: the `Password` validator.  "Always succeeds
for any string, including empty (empty means absent/no password)." -/
structure Password where
  inner : Option String
  deriving DecidableEq, Repr

/-- Modelled from the spec: `Password::new` — any string is accepted,
the empty string standing for "no password". -/
def Password.new (raw : String) : Except ValidationError Password :=
  Except.ok ⟨if raw = "" then none else some raw⟩

/-- `Password::default`: no password. -/
def Password.default : Password := ⟨none⟩

/-- `Password::into_inner` as used by the web layer gives the optional
raw secret. -/
def Password.into_inner (p : Password) : Option String := p.inner

/-- Modelled from the spec: the `ExpiresAt` validator.  Absent input
means "never expires"; a present timestamp must be strictly after the
current time `now` or validation fails. -/
def ExpiresAt.new (raw : Option Nat) (now : Nat) :
    Except ValidationError (Option Nat) :=
  match raw with
  | none => Except.ok none
  | some t =>
    if now < t then Except.ok (some t)
    else Except.error ⟨"expires_at", "expiration time is in the past"⟩

/-- A stored clip record, fields as in the spec's data model. -/
structure Clip where
  short_code : String
  content : Content
  title : Option String
  password : Password
  posted_at : Nat
  expires_at : Option Nat
  hits : Nat
  deriving DecidableEq, Repr

/-- A clip is expired when `expires_at` is set and not strictly after
the current wall-clock time. -/
def Clip.expired (clip : Clip) (now : Nat) : Bool :=
  match clip.expires_at with
  | none => false
  | some t => t ≤ now

/-- The service error taxonomy surfaced to callers. -/
inductive ServiceError
  | notFound
  | permissionError (hint : String)
  | invalid (e : ValidationError)
  | internal
  deriving DecidableEq, Repr

/-- Core of the constant-time comparison: walk the whole zipped list,
accumulating the conjunction, and count the iterations performed.  The
iteration count is structurally independent of the accumulator, so the
walk never exits early on a mismatch. -/
def ctEqAux : List (Char × Char) → Bool → Bool × Nat
  | [], acc => (acc, 0)
  | p :: ps, acc =>
    let r := ctEqAux ps (acc && (p.1 == p.2))
    (r.1, r.2 + 1)

/-- Modelled from the spec: the password equality check used by
`get_clip` (the service module is not under `src/`).  "A constant-time
equality check … the comparison must be constant in code path, not
early-exit on first char." -/
def ctEq (a b : String) : Bool :=
  (a.length == b.length) && (ctEqAux (a.data.zip b.data) true).1

/-- The number of character-comparison steps `ctEq` performs. -/
def ctSteps (a b : String) : Nat := (ctEqAux (a.data.zip b.data) true).2

/-- Does the supplied credential match the stored (non-empty) password? -/
def passwordMatches (supplied : Password) (stored : String) : Bool :=
  match supplied.inner with
  | none => false
  | some s => ctEq s stored

/-- The user-facing hint returned on a failed password check; a fixed
message, never derived from the stored secret. -/
def passwordHint : String := "a password is required to view this clip"

/-- The clip store, modelled as the map backing `ClipStore.get`. -/
def Store := String → Option Clip

/-- The `get_clip` request shape. -/
structure GetClipReq where
  short_code : String
  password : Password

/-- Modelled from the spec: the service use case `get_clip` (the
`service::action` module is not under `src/`).  "Fetches by code; fails
NotFound if absent; if the stored record is expired treats it
identically to NotFound; if the stored clip has a non-empty password and
the supplied password does not match, fails PermissionError; otherwise
returns the clip." -/
def action_get_clip (store : Store) (now : Nat) (req : GetClipReq) :
    Except ServiceError Clip :=
  match store req.short_code with
  | none => Except.error ServiceError.notFound
  | some clip =>
    if clip.expired now then Except.error ServiceError.notFound
    else
      match clip.password.inner with
      | none => Except.ok clip
      | some p =>
        if passwordMatches req.password p then Except.ok clip
        else Except.error (ServiceError.permissionError passwordHint)

/-- Modelled from the spec: the insert-retry loop of `new_clip` (the
service module is not under `src/`).  `taken` says whether a short code
already exists in the store (an insert of it fails with `Conflict`);
`gen i` is the code generated on attempt `i`.  On `Conflict` the loop
regenerates and retries; when the fuel runs out it fails with
`ServiceError::internal`. -/
def newClipInsertLoop (taken : String → Bool) (gen : Nat → String) :
    Nat → Nat → Except ServiceError String
  | _, 0 => Except.error ServiceError.internal
  | i, fuel + 1 =>
    if taken (gen i) then newClipInsertLoop taken gen (i + 1) fuel
    else Except.ok (gen i)

/-- Modelled from the spec: the hard cap on insert attempts ("bounded
retry loop with a hard cap (e.g., 5 attempts)"). -/
def RETRY_CAP : Nat := 5

/-- Modelled from the spec: the short-code insertion phase of `new_clip`,
returning the short code under which the clip was stored. -/
def new_clip_insert (taken : String → Bool) (gen : Nat → String) :
    Except ServiceError String :=
  newClipInsertLoop taken gen 0 RETRY_CAP

/-- The name of the password cookie (`PASSWORD_COOKIE`); the tests in
`http.rs` exercise it as `"password"`. -/
def PASSWORD_COOKIE : String := "password"

/-- What a web handler observably does: the HTTP status produced, the
view-count events issued via `views.view(short_code, count)`, and the
cookies added. -/
structure WebResult where
  status : Nat
  views : List (String × Nat)
  cookies : List (String × String)
  deriving DecidableEq, Repr

/-- The status mapping shared by the `get_clip` and `get_raw_clip`
handlers in `http.rs`: success renders with `Status::Ok`,
`PermissionError` with `Status::Unauthorized`, `NotFound` becomes the
404 page, anything else a 500. -/
def clipStatus : Except ServiceError Clip → Nat
  | Except.ok _ => 200
  | Except.error (ServiceError.permissionError _) => 401
  | Except.error ServiceError.notFound => 404
  | Except.error _ => 500

/-- The `GET /clip/<short_code>` handler (`get_clip` in `http.rs`): calls
`action::get_clip` with the short code converted into a request (no
password supplied), issues `views.view(short_code, 1)` exactly on the
`Ok` branch, and maps the outcome through `clipStatus`. -/
def web_get_clip (store : Store) (now : Nat) (sc : String) : WebResult :=
  let r := action_get_clip store now ⟨sc, Password.default⟩
  { status := clipStatus r
    views := match r with
      | Except.ok _ => [(sc, 1)]
      | Except.error _ => []
    cookies := [] }

/-- The `POST /clip/<short_code>` handler (`submit_clip_password` in
`http.rs`).  `form` is the parsed form value: `none` when the form did
not validate (the handler re-renders the password page, status 200,
touching nothing).  On a successful retrieval it issues one view event
and stores the supplied password in plaintext in the `PASSWORD_COOKIE`
cookie (`form.password.into_inner().unwrap_or_default()`, so the empty
string when absent).  A `PermissionError` re-renders the password page
with the hint, still status 200; `NotFound` is the 404 page. -/
def web_submit_clip_password (store : Store) (now : Nat) (sc : String)
    (form : Option Password) : WebResult :=
  match form with
  | none => { status := 200, views := [], cookies := [] }
  | some pw =>
    match action_get_clip store now ⟨sc, pw⟩ with
    | Except.ok _ =>
      { status := 200
        views := [(sc, 1)]
        cookies := [(PASSWORD_COOKIE, pw.into_inner.getD "")] }
    | Except.error (ServiceError.permissionError _) =>
      { status := 200, views := [], cookies := [] }
    | Except.error ServiceError.notFound =>
      { status := 404, views := [], cookies := [] }
    | Except.error _ =>
      { status := 500, views := [], cookies := [] }

/-- A concrete clip protected by password `"123"`, as in the spec's
testable property and the test in `http.rs`. -/
def clip123 : Clip :=
  { short_code := "abcd1234ab"
    content := ⟨"hello world"⟩
    title := none
    password := ⟨some "123"⟩
    posted_at := 0
    expires_at := none
    hits := 0 }

/-- A store holding exactly `clip123`. -/
def store123 : Store := fun c =>
  if c = "abcd1234ab" then some clip123 else none

/-- A concrete unprotected clip expiring at time 10. -/
def clipExp : Clip :=
  { short_code := "dddd4444dd"
    content := ⟨"expiring"⟩
    title := none
    password := ⟨none⟩
    posted_at := 0
    expires_at := some 10
    hits := 0 }

/-- A store holding exactly `clipExp`. -/
def storeExp : Store := fun c =>
  if c = "dddd4444dd" then some clipExp else none

/-- Look a cookie up in the jar by name (`cookies.get(name)`). -/
def cookieValue (jar : List (String × String)) (name : String) :
    Option String :=
  (jar.find? fun c => c.1 == name).map Prod.snd

/-- How `get_raw_clip` sources its password credential: the value of the
`PASSWORD_COOKIE` cookie run through `Password::new(...).ok()`, falling
back to `Password::default` when the cookie is missing or the result is
`None`. -/
def rawClipPassword (jar : List (String × String)) : Password :=
  (((cookieValue jar PASSWORD_COOKIE).map
    fun raw => (Password.new raw).toOption).join).getD Password.default

/-- The `GET /clip/raw/<short_code>` handler (`get_raw_clip` in
`http.rs`): password sourced from the cookie jar, one view event exactly
on the `Ok` branch, outcome mapped through the same status mapping as
`get_clip`. -/
def web_get_raw_clip (store : Store) (now : Nat) (sc : String)
    (jar : List (String × String)) : WebResult :=
  let r := action_get_clip store now ⟨sc, rawClipPassword jar⟩
  { status := clipStatus r
    views := match r with
      | Except.ok _ => [(sc, 1)]
      | Except.error _ => []
    cookies := [] }

end ClipShare

namespace ClipShare

/-- The boolean computed by the comparison walk is the conjunction of
the accumulator with the pointwise equalities. -/
theorem ctEqAux_fst (l : List (Char × Char)) (acc : Bool) :
    (ctEqAux l acc).1 = (acc && l.all fun p => p.1 == p.2) := by
  induction l generalizing acc with
  | nil => simp [ctEqAux]
  | cons p ps ih => simp [ctEqAux, ih, Bool.and_assoc]

/-- The comparison walk performs one step per zipped character pair,
whatever the accumulator holds. -/
theorem ctEqAux_snd (l : List (Char × Char)) (acc : Bool) :
    (ctEqAux l acc).2 = l.length := by
  induction l generalizing acc with
  | nil => rfl
  | cons p ps ih => simp [ctEqAux, ih]

/-- For equal-length lists, pointwise equality of the zip is equality of
the lists. -/
theorem zip_all_beq_iff : ∀ a b : List Char, a.length = b.length →
    ((((a.zip b).all fun p => p.1 == p.2) = true) ↔ a = b)
  | [], [], _ => by simp
  | [], _ :: _, h => by simp at h
  | _ :: _, [], h => by simp at h
  | c :: a, d :: b, h => by
    have ih := zip_all_beq_iff a b (by simpa using h)
    simp [List.zip_cons_cons, List.all_cons, ih]

/-- `ctEq` decides exact string equality. -/
theorem ctEq_eq_true_iff (a b : String) : ctEq a b = true ↔ a = b := by
  unfold ctEq
  rw [Bool.and_eq_true, ctEqAux_fst, Bool.true_and, beq_iff_eq]
  constructor
  · rintro ⟨hl, hall⟩
    exact String.ext ((zip_all_beq_iff a.data b.data hl).mp hall)
  · rintro rfl
    exact ⟨rfl, (zip_all_beq_iff a.data a.data rfl).mpr rfl⟩

/-- `ctEq` always takes `min` of the two lengths many comparison steps. -/
theorem ctSteps_eq_min (a b : String) :
    ctSteps a b = min a.length b.length := by
  unfold ctSteps
  rw [ctEqAux_snd, List.length_zip]
  rfl

/-- C7: the password comparison used by `get_clip` is an exact-match
equality check whose code path is constant in the supplied secret: it
decides exact equality, the supplied credential is compared via `ctEq`,
and the number of comparison steps depends only on the lengths of the
two strings, never on their contents — so no early exit on the first
differing character. -/
theorem get_clip_password_compare_constant_path :
    (∀ a b : String, ctEq a b = true ↔ a = b) ∧
      (∀ s p : String, passwordMatches ⟨some s⟩ p = ctEq s p) ∧
      (∀ a b a' b' : String, a.length = a'.length → b.length = b'.length →
        ctSteps a b = ctSteps a' b') := by
  refine ⟨ctEq_eq_true_iff, fun s p => rfl, fun a b a' b' ha hb => ?_⟩
  rw [ctSteps_eq_min, ctSteps_eq_min, ha, hb]

/-- Concrete instance of C7: comparing equal-length secrets of different
contents takes the same number of steps. -/
theorem get_clip_password_compare_constant_path_witness :
    ctSteps "abc" "12345" = ctSteps "xyz" "54321" :=
  get_clip_password_compare_constant_path.2.2 "abc" "12345" "xyz" "54321" rfl rfl

/-- C2: Every `ShortCode::new` (for every behaviour `pick` of the RNG)
returns a code of exactly 10 characters, each drawn from the fixed
8-symbol alphabet `{a, b, c, d, 1, 2, 3, 4}`. -/
theorem shortcode_new_length_and_alphabet (pick : Nat → Fin 8) :
    (ShortCode.new pick).inner.length = 10 ∧
      ∀ c ∈ (ShortCode.new pick).inner.data, c ∈ allowed_chars := by
  constructor
  · simp [ShortCode.new, String.length]
  · intro c hc
    simp only [ShortCode.new, List.mem_map] at hc
    obtain ⟨i, -, rfl⟩ := hc
    exact List.get_mem _ _ _

/-- C3: Parsing a `ShortCode` from an external identifier never fails:
for every input string (any characters, any length) both `FromStr` and
`FromParam` return `Ok` wrapping exactly that string. -/
theorem shortcode_parse_total (s : String) :
    ShortCode.from_str s = Except.ok (ShortCode.mk s) ∧
      ShortCode.from_param s = Except.ok (ShortCode.mk s) := by
  exact ⟨rfl, rfl⟩

/-- C8: `ShortCode` is an opaque interned string: converting a string in
and back out via `as_str`, `into_inner` or `Into<String>` is the
identity; two `ShortCode`s are equal exactly when their underlying
strings are; hashing factors through the underlying string, so equal
strings hash equally under any hash function. -/
theorem shortcode_opaque_interned_string :
    (∀ s : String,
        (ShortCode.fromStr s).as_str = s ∧
          (ShortCode.fromStr s).into_inner = s ∧
          (ShortCode.fromStr s).intoString = s) ∧
      (∀ a b : ShortCode, a = b ↔ a.inner = b.inner) ∧
      (∀ (f : String → Nat) (a b : ShortCode),
        a.inner = b.inner → ShortCode.hashWith f a = ShortCode.hashWith f b) := by
  refine ⟨fun s => ⟨rfl, rfl, rfl⟩, fun a b => ?_, fun f a b h => ?_⟩
  · cases a; cases b; simp [ShortCode.mk.injEq]
  · simp [ShortCode.hashWith, h]

end ClipShare

namespace ClipShare

/-- Every successfully returned clip is exactly the stored record under
the requested short code. -/
theorem action_get_clip_ok (store : Store) (now : Nat) (req : GetClipReq)
    (clip : Clip) (h : action_get_clip store now req = Except.ok clip) :
    store req.short_code = some clip := by
  unfold action_get_clip at h
  cases hs : store req.short_code with
  | none => rw [hs] at h; exact absurd h (by simp)
  | some c =>
    rw [hs] at h
    by_cases he : c.expired now
    · simp [he] at h
    · simp only [he, if_neg, Bool.false_eq_true, if_false] at h
      cases hp : c.password.inner with
      | none =>
        rw [hp] at h
        cases h
        rfl
      | some p =>
        rw [hp] at h
        by_cases hm : passwordMatches req.password p
        · simp only [hm, if_true] at h
          cases h
          rfl
        · simp [hm] at h

/-- C1: for every `get_clip` request the outcome is exactly as the spec
states: `NotFound` when the code is absent, `NotFound` when the stored
clip is expired, `PermissionError` with the fixed hint (never the stored
password) when a non-empty stored password is not matched exactly, and
the full clip otherwise; concretely, a clip with password `"123"` yields
`PermissionError` for no password and for `"abc"`, and the clip for
`"123"`; and the web layer maps success, `NotFound` and
`PermissionError` to 200, 404 and 401. -/
theorem get_clip_outcomes (store : Store) (now : Nat) (req : GetClipReq) :
    ((store req.short_code = none →
        action_get_clip store now req = Except.error ServiceError.notFound) ∧
      (∀ clip, store req.short_code = some clip → clip.expired now = true →
        action_get_clip store now req = Except.error ServiceError.notFound) ∧
      (∀ clip p, store req.short_code = some clip → clip.expired now = false →
        clip.password.inner = some p → req.password.inner ≠ some p →
        action_get_clip store now req =
          Except.error (ServiceError.permissionError passwordHint)) ∧
      (∀ clip, store req.short_code = some clip → clip.expired now = false →
        (clip.password.inner = none ∨ clip.password.inner = req.password.inner) →
        action_get_clip store now req = Except.ok clip)) ∧
    (action_get_clip store123 0 ⟨"abcd1234ab", Password.default⟩ =
        Except.error (ServiceError.permissionError passwordHint) ∧
      action_get_clip store123 0 ⟨"abcd1234ab", ⟨some "abc"⟩⟩ =
        Except.error (ServiceError.permissionError passwordHint) ∧
      action_get_clip store123 0 ⟨"abcd1234ab", ⟨some "123"⟩⟩ =
        Except.ok clip123) ∧
    ((∀ c : Clip, clipStatus (Except.ok c) = 200) ∧
      clipStatus (Except.error ServiceError.notFound) = 404 ∧
      ∀ m, clipStatus (Except.error (ServiceError.permissionError m)) = 401) := by
  refine ⟨⟨?_, ?_, ?_, ?_⟩, ⟨by rfl, by rfl, by rfl⟩,
    fun c => rfl, rfl, fun m => rfl⟩
  · intro h
    unfold action_get_clip
    rw [h]
  · intro clip h hexp
    unfold action_get_clip
    rw [h]
    simp [hexp]
  · intro clip p h hexp hp hne
    have hm : passwordMatches req.password p = false := by
      unfold passwordMatches
      cases hpw : req.password.inner with
      | none => rfl
      | some s =>
        have hsp : s ≠ p := fun e => hne (by rw [hpw, e])
        cases hb : ctEq s p with
        | false => simpa using hb
        | true => exact absurd ((ctEq_eq_true_iff s p).mp hb) hsp
    unfold action_get_clip
    rw [h]
    simp [hexp, hp, hm]
  · intro clip h hexp hcase
    rcases hcase with hnone | heq
    · unfold action_get_clip
      rw [h]
      simp [hexp, hnone]
    · cases hpi : clip.password.inner with
      | none =>
        unfold action_get_clip
        rw [h]
        simp [hexp, hpi]
      | some p =>
        have hreq : req.password.inner = some p := heq.symm.trans hpi
        have hm : passwordMatches req.password p = true := by
          unfold passwordMatches
          rw [hreq]
          exact (ctEq_eq_true_iff p p).mpr rfl
        unfold action_get_clip
        rw [h]
        simp [hexp, hpi, hm]

/-- Concrete instance of C1: a lookup of an absent code is `NotFound`. -/
theorem get_clip_outcomes_witness :
    action_get_clip store123 0 ⟨"zzzz", Password.default⟩ =
      Except.error ServiceError.notFound :=
  (get_clip_outcomes store123 0 ⟨"zzzz", Password.default⟩).1.1 (by decide)

end ClipShare

namespace ClipShare

/-- C4: content validation fails exactly when the raw input is empty
after trimming; on success the wrapped value is the raw text unchanged;
and since `get_clip` returns the stored record verbatim, the content
retrieved equals the content submitted, byte for byte. -/
theorem content_validation_and_roundtrip :
    (∀ raw : String,
      (∃ e, Content.new raw = Except.error e) ↔ rustTrim raw = "") ∧
    (∀ (raw : String) (c : Content),
      Content.new raw = Except.ok c → c = ⟨raw⟩) ∧
    (∀ (raw : String) (store : Store) (now : Nat) (req : GetClipReq)
        (stored retrieved : Clip),
      Content.new raw = Except.ok stored.content →
      store req.short_code = some stored →
      action_get_clip store now req = Except.ok retrieved →
      retrieved.content.inner = raw) := by
  have hok : ∀ (raw : String) (c : Content),
      Content.new raw = Except.ok c → c = ⟨raw⟩ := by
    intro raw c h
    by_cases ht : rustTrim raw = ""
    · simp [Content.new, ht] at h
    · simp only [Content.new, ht, if_neg, if_false] at h
      cases h
      rfl
  refine ⟨fun raw => ⟨?_, ?_⟩, hok,
    fun raw store now req stored retrieved hc hs ha => ?_⟩
  · rintro ⟨e, he⟩
    by_cases ht : rustTrim raw = ""
    · exact ht
    · simp [Content.new, ht] at he
  · intro h
    exact ⟨⟨"content", "content cannot be empty"⟩, by simp [Content.new, h]⟩
  · have h1 := action_get_clip_ok store now req retrieved ha
    rw [hs] at h1
    cases h1
    have h2 := hok raw stored.content hc
    rw [h2]

/-- Concrete instance of C4: the stored content `"hello world"` of
`clip123` round-trips through a successful `get_clip`. -/
theorem content_validation_and_roundtrip_witness :
    clip123.content.inner = "hello world" :=
  content_validation_and_roundtrip.2.2 "hello world" store123 0
    ⟨"abcd1234ab", ⟨some "123"⟩⟩ clip123 clip123 (by rfl) (by rfl) (by rfl)

/-- C5: an absent expiration input always validates and means "never
expires" (such a clip is never considered expired); a present timestamp
not strictly after the current time is a validation error; a strictly
future timestamp validates to exactly that timestamp, and that exact
timestamp round-trips through a successful `get_clip`. -/
theorem expires_at_validation :
    (∀ now : Nat, ExpiresAt.new none now = Except.ok none) ∧
    (∀ (clip : Clip) (now : Nat),
      clip.expires_at = none → clip.expired now = false) ∧
    (∀ t now : Nat, t ≤ now → ExpiresAt.new (some t) now =
      Except.error ⟨"expires_at", "expiration time is in the past"⟩) ∧
    (∀ t now : Nat, now < t →
      ExpiresAt.new (some t) now = Except.ok (some t)) ∧
    (∀ (t vnow now : Nat) (store : Store) (req : GetClipReq)
        (stored retrieved : Clip),
      ExpiresAt.new (some t) vnow = Except.ok stored.expires_at →
      store req.short_code = some stored →
      action_get_clip store now req = Except.ok retrieved →
      retrieved.expires_at = some t) := by
  refine ⟨fun now => rfl, fun clip now h => ?_, fun t now h => ?_,
    fun t now h => ?_, fun t vnow now store req stored retrieved he hs ha => ?_⟩
  · simp [Clip.expired, h]
  · simp [ExpiresAt.new, Nat.not_lt.mpr h]
  · simp [ExpiresAt.new, h]
  · have h1 := action_get_clip_ok store now req retrieved ha
    rw [hs] at h1
    cases h1
    by_cases hv : vnow < t
    · rw [show ExpiresAt.new (some t) vnow = Except.ok (some t) by
        simp [ExpiresAt.new, hv]] at he
      exact (Except.ok.inj he).symm
    · simp [ExpiresAt.new, hv] at he

/-- Concrete instance of C5: timestamp 10 validated at time 0 round-trips
through `get_clip` of the stored clip at read time 0. -/
theorem expires_at_validation_witness :
    clipExp.expires_at = some 10 :=
  expires_at_validation.2.2.2.2 10 0 0 storeExp
    ⟨"dddd4444dd", Password.default⟩ clipExp clipExp (by rfl) (by rfl) (by rfl)

end ClipShare

namespace ClipShare

/-- One unfolding step of the retry loop. -/
theorem newClipInsertLoop_succ (taken : String → Bool) (gen : Nat → String)
    (i n : Nat) :
    newClipInsertLoop taken gen i (n + 1) =
      if taken (gen i) then newClipInsertLoop taken gen (i + 1) n
      else Except.ok (gen i) := rfl

/-- If every code generated within the fuel budget collides, the retry
loop ends in an internal error. -/
theorem newClipInsertLoop_all_taken (taken : String → Bool)
    (gen : Nat → String) :
    ∀ (fuel i : Nat), (∀ j, j < fuel → taken (gen (i + j)) = true) →
      newClipInsertLoop taken gen i fuel =
        Except.error ServiceError.internal := by
  intro fuel
  induction fuel with
  | zero => intro i _; rfl
  | succ n ih =>
    intro i h
    have h0 : taken (gen i) = true := by simpa using h 0 (Nat.succ_pos n)
    unfold newClipInsertLoop
    simp only [h0, if_true]
    exact ih (i + 1) fun j hj => by
      have e : i + 1 + j = i + (j + 1) := by omega
      rw [e]
      exact h (j + 1) (Nat.succ_lt_succ hj)

/-- The loop succeeds with the first non-colliding code within the fuel
budget. -/
theorem newClipInsertLoop_first_free (taken : String → Bool)
    (gen : Nat → String) :
    ∀ (fuel i k : Nat), k < fuel →
      (∀ j, j < k → taken (gen (i + j)) = true) →
      taken (gen (i + k)) = false →
      newClipInsertLoop taken gen i fuel = Except.ok (gen (i + k)) := by
  intro fuel
  induction fuel with
  | zero => intro i k hk _ _; exact absurd hk (Nat.not_lt_zero k)
  | succ n ih =>
    intro i k hk hprev hfree
    cases k with
    | zero =>
      have h0 : taken (gen i) = false := by simpa using hfree
      unfold newClipInsertLoop
      simp [h0]
    | succ m =>
      have h0 : taken (gen i) = true := by simpa using hprev 0 (Nat.succ_pos m)
      unfold newClipInsertLoop
      simp only [h0, if_true]
      have e : i + 1 + m = i + (m + 1) := by omega
      have := ih (i + 1) m (Nat.lt_of_succ_lt_succ hk)
        (fun j hj => by
          have e2 : i + 1 + j = i + (j + 1) := by omega
          rw [e2]
          exact hprev (j + 1) (Nat.succ_lt_succ hj))
        (by rw [e]; exact hfree)
      rw [e] at this
      exact this

/-- The loop never surfaces a conflict: it ends in an internal error or
in success with a code that was free in the store. -/
theorem newClipInsertLoop_ok_or_internal (taken : String → Bool)
    (gen : Nat → String) :
    ∀ (fuel i : Nat),
      newClipInsertLoop taken gen i fuel =
          Except.error ServiceError.internal ∨
        ∃ s, newClipInsertLoop taken gen i fuel = Except.ok s ∧
          taken s = false := by
  intro fuel
  induction fuel with
  | zero => intro i; left; rfl
  | succ n ih =>
    intro i
    cases ht : taken (gen i) with
    | true =>
      rw [newClipInsertLoop_succ, if_pos ht]
      exact ih (i + 1)
    | false =>
      right
      refine ⟨gen i, ?_, ht⟩
      rw [newClipInsertLoop_succ]
      simp [ht]

/-- C6: `new_clip` handles short-code collisions by regenerating and
retrying: within the hard cap of `RETRY_CAP = 5` attempts it succeeds
with the first freshly generated code that does not collide; if all 5
attempts collide it fails with `ServiceError::internal`; and the
outcome is always either success with a non-colliding code or an
internal error — a `Conflict` is never surfaced to the caller. -/
theorem new_clip_conflict_retry (taken : String → Bool)
    (gen : Nat → String) :
    RETRY_CAP = 5 ∧
    (∀ k, k < RETRY_CAP → (∀ j, j < k → taken (gen j) = true) →
      taken (gen k) = false →
      new_clip_insert taken gen = Except.ok (gen k)) ∧
    ((∀ j, j < RETRY_CAP → taken (gen j) = true) →
      new_clip_insert taken gen = Except.error ServiceError.internal) ∧
    (new_clip_insert taken gen = Except.error ServiceError.internal ∨
      ∃ s, new_clip_insert taken gen = Except.ok s ∧ taken s = false) := by
  refine ⟨rfl, fun k hk hprev hfree => ?_, fun h => ?_, ?_⟩
  · have := newClipInsertLoop_first_free taken gen RETRY_CAP 0 k hk
      (fun j hj => by simpa using hprev j hj) (by simpa using hfree)
    simpa [new_clip_insert] using this
  · exact newClipInsertLoop_all_taken taken gen RETRY_CAP 0
      fun j hj => by simpa using h j hj
  · exact newClipInsertLoop_ok_or_internal taken gen RETRY_CAP 0

/-- Concrete instance of C6: with a store where the first generated code
collides and the second is free, `new_clip` succeeds with the second
code. -/
theorem new_clip_conflict_retry_witness :
    new_clip_insert (fun s => s == "aaaaaaaaaa")
        (fun i => if i = 0 then "aaaaaaaaaa" else "bbbbbbbbbb") =
      Except.ok "bbbbbbbbbb" := by
  have h := (new_clip_conflict_retry (fun s => s == "aaaaaaaaaa")
    (fun i => if i = 0 then "aaaaaaaaaa" else "bbbbbbbbbb")).2.1 1
    (by decide)
    (fun j hj => by
      interval_cases j
      decide)
    (by decide)
  simpa using h

end ClipShare

namespace ClipShare

/-- C9: each of the three retrieval handlers issues
`views.view(short_code, 1)` exactly on its success branch: a successful
retrieval records exactly one view, a failed one (not found, expired,
wrong password) records none, and an invalid password form on the POST
route records none. -/
theorem views_recorded_exactly_on_success (store : Store) (now : Nat)
    (sc : String) (pw : Password) (jar : List (String × String)) :
    ((∀ c, action_get_clip store now ⟨sc, Password.default⟩ = Except.ok c →
        (web_get_clip store now sc).views = [(sc, 1)]) ∧
      (∀ e, action_get_clip store now ⟨sc, Password.default⟩ =
          Except.error e → (web_get_clip store now sc).views = [])) ∧
    ((∀ c, action_get_clip store now ⟨sc, pw⟩ = Except.ok c →
        (web_submit_clip_password store now sc (some pw)).views =
          [(sc, 1)]) ∧
      (∀ e, action_get_clip store now ⟨sc, pw⟩ = Except.error e →
        (web_submit_clip_password store now sc (some pw)).views = []) ∧
      (web_submit_clip_password store now sc none).views = []) ∧
    ((∀ c, action_get_clip store now ⟨sc, rawClipPassword jar⟩ =
          Except.ok c →
        (web_get_raw_clip store now sc jar).views = [(sc, 1)]) ∧
      (∀ e, action_get_clip store now ⟨sc, rawClipPassword jar⟩ =
          Except.error e →
        (web_get_raw_clip store now sc jar).views = [])) := by
  refine ⟨⟨fun c h => ?_, fun e h => ?_⟩,
    ⟨fun c h => ?_, fun e h => ?_, rfl⟩, fun c h => ?_, fun e h => ?_⟩
  · simp [web_get_clip, h]
  · simp [web_get_clip, h]
  · simp [web_submit_clip_password, h]
  · cases e <;> simp [web_submit_clip_password, h]
  · simp [web_get_raw_clip, h]
  · simp [web_get_raw_clip, h]

/-- Concrete instance of C9: a password-protected clip fetched with no
credential fails and records no view. -/
theorem views_recorded_exactly_on_success_witness :
    (web_get_clip store123 0 "abcd1234ab").views = [] :=
  (views_recorded_exactly_on_success store123 0 "abcd1234ab"
    Password.default []).1.2 (ServiceError.permissionError passwordHint)
    (by rfl)

/-- C10: on a successful password submission the handler stores the
supplied password in plaintext in the `PASSWORD_COOKIE` cookie (the
empty string when the password is absent), and on no other branch; and
`get_raw_clip` sources its credential from that cookie — the parsed
cookie value when present, the no-password default when the cookie is
missing — and runs the retrieval with exactly that credential. -/
theorem password_cookie_flow (store : Store) (now : Nat) (sc : String)
    (pw : Password) (jar : List (String × String)) :
    ((∀ c, action_get_clip store now ⟨sc, pw⟩ = Except.ok c →
        (web_submit_clip_password store now sc (some pw)).cookies =
          [(PASSWORD_COOKIE, pw.into_inner.getD "")]) ∧
      (∀ e, action_get_clip store now ⟨sc, pw⟩ = Except.error e →
        (web_submit_clip_password store now sc (some pw)).cookies = []) ∧
      (web_submit_clip_password store now sc none).cookies = []) ∧
    ((cookieValue jar PASSWORD_COOKIE = none →
        rawClipPassword jar = Password.default) ∧
      (∀ v, cookieValue jar PASSWORD_COOKIE = some v →
        rawClipPassword jar = ⟨if v = "" then none else some v⟩)) ∧
    (web_get_raw_clip store now sc jar =
      { status := clipStatus
          (action_get_clip store now ⟨sc, rawClipPassword jar⟩)
        views := match action_get_clip store now ⟨sc, rawClipPassword jar⟩
          with
          | Except.ok _ => [(sc, 1)]
          | Except.error _ => []
        cookies := [] }) := by
  refine ⟨⟨fun c h => ?_, fun e h => ?_, rfl⟩,
    ⟨fun h => ?_, fun v h => ?_⟩, rfl⟩
  · simp [web_submit_clip_password, h]
  · cases e <;> simp [web_submit_clip_password, h]
  · simp [rawClipPassword, h]
  · simp [rawClipPassword, h, Password.new, Except.toOption]

/-- Concrete instance of C10: submitting the correct password `"123"`
stores it in plaintext in the password cookie. -/
theorem password_cookie_flow_witness :
    (web_submit_clip_password store123 0 "abcd1234ab"
        (some ⟨some "123"⟩)).cookies = [(PASSWORD_COOKIE, "123")] :=
  (password_cookie_flow store123 0 "abcd1234ab" ⟨some "123"⟩ []).1.1
    clip123 (by rfl)

end ClipShare
